import Mathlib

/-!
Verification of the aim-engine recipe-selection and configuration core.

This file gives a shallow embedding, in Lean 4, of the recipe resolver
(`aim_recipe_selector.py`), the configuration synthesizer
(`aim_config_generator.py`) and the standalone command generator
(`aim_generate_command.py`), and proves or refutes the frozen claims about
them.

Modelling conventions:
* YAML records become Lean structures; a field that can be absent in the
  record becomes an `Option`.
* Python dicts keyed by `"<N>_gpu"` strings become association lists keyed
  by the numeral `N`; iteration order is the list order (Python dict
  insertion order).
* External process probes are modelled by their observable outcome: a
  method either raised an exception, ran with a nonzero exit status, or
  ran successfully and its output parsed to a count `n`.
* Python string operations `strip`/`lower`/`startswith` are implemented on
  the character list of a `String` so that the kernel can evaluate them.
-/

namespace AimEngine

/-- Python `s.lower()` on a string. -/
def pyLower (s : String) : String := ⟨s.data.map Char.toLower⟩

/-- Python `s.strip()` on a string (drop surrounding whitespace). -/
def pyStrip (s : String) : String :=
  ⟨((s.data.dropWhile Char.isWhitespace).reverse.dropWhile Char.isWhitespace).reverse⟩

/-- Python `s.startswith(p)`. -/
def strStartsWith (s p : String) : Bool := p.data.isPrefixOf s.data

/-- Python `s[n:]` (drop the first `n` characters). -/
def strDrop (s : String) (n : Nat) : String := ⟨s.data.drop n⟩

/-- The serving backends accepted by the selector and the generator
(`vllm_serve` / `sglang_serve` recipe sections). -/
inductive Backend where
  | vllm
  | sglang
  deriving DecidableEq, Repr

/-- One `"<N>_gpu"` entry of a recipe: the optional `enabled` field and the
ordered `args` mapping.  An absent `enabled` key is `none`. -/
structure Slot where
  enabled : Option Bool
  args : List (String × String)
  deriving DecidableEq, Repr

/-- `config.get('enabled', False)` from the source. -/
def Slot.isEnabled (sl : Slot) : Bool := sl.enabled.getD false

/-- A recipe record (`recipes/*.yaml`).  `precision` is `recipe.get('precision')`;
`vllm_serve` / `sglang_serve` are `none` when the backend section is absent,
otherwise the ordered association list of gpu-count slots. -/
structure Recipe where
  recipe_id : String
  huggingface_id : String
  precision : Option String
  vllm_serve : Option (List (Nat × Slot))
  sglang_serve : Option (List (Nat × Slot))
  deriving DecidableEq, Repr

/-- `recipe[f"{backend}_serve"]` as an optional section. -/
def Recipe.serve (r : Recipe) : Backend → Option (List (Nat × Slot))
  | .vllm => r.vllm_serve
  | .sglang => r.sglang_serve

/-- `recipe[backend_key][gpu_key]`: the slot stored under
`(backend, gpu_count)`, if both keys are present. -/
def lookupSlot (r : Recipe) (b : Backend) (g : Nat) : Option Slot :=
  match r.serve b with
  | none => none
  | some entries => ((entries.find? (fun e => e.1 == g)).map Prod.snd)

/-- A model record (`models/*.yaml`): `size` is `model.get('size', 'unknown')`
before the default is applied. -/
structure ModelInfo where
  huggingface_id : String
  size : Option String
  deriving DecidableEq, Repr

/-- The selector state after `__init__`: loaded model definitions keyed by
huggingface id, and the recipe files available on disk (in glob order). -/
structure Selector where
  models : List (String × ModelInfo)
  recipes : List Recipe
  deriving DecidableEq, Repr

/-- `self.models.get(model_id)`. -/
def lookupModel (s : Selector) (m : String) : Option ModelInfo :=
  (s.models.find? (fun e => e.1 == m)).map Prod.snd

/-- `self.models.get(model_id, {}).get('size', 'unknown')`. -/
def modelSize (s : Selector) (m : String) : String :=
  match lookupModel s m with
  | none => "unknown"
  | some mi => mi.size.getD "unknown"

/-- `model_recipes[recipe['recipe_id']] = recipe`: dict insertion keyed by
recipe id (an existing key keeps its position and takes the new value). -/
def upsertByRecipeId (acc : List Recipe) (r : Recipe) : List Recipe :=
  if acc.any (fun x => x.recipe_id == r.recipe_id) then
    acc.map (fun x => if x.recipe_id == r.recipe_id then r else x)
  else acc ++ [r]

/-- `_load_model_recipes`: the recipes whose `huggingface_id` matches the
model, keyed by recipe id, in file order. -/
def loadModelRecipes (s : Selector) (m : String) : List Recipe :=
  (s.recipes.filter (fun r => r.huggingface_id == m)).foldl upsertByRecipeId []

/-- The per-recipe test of `find_matching_recipes`: the precision matches and
the `(backend, gpu_count)` slot exists and is enabled. -/
def recipeMatches (r : Recipe) (g : Nat) (p : String) (b : Backend) : Bool :=
  decide (r.precision = some p) &&
    (match lookupSlot r b g with
     | none => false
     | some sl => sl.isEnabled)

/-- `find_matching_recipes(model_id, gpu_count, precision, backend)`. -/
def findMatchingRecipes (s : Selector) (m : String) (g : Nat) (p : String)
    (b : Backend) : List Recipe :=
  (loadModelRecipes s m).filter (fun r => recipeMatches r g p b)

/-- `_get_optimal_gpu_count(model_id, available_gpus, customer_gpu_count)`. -/
def getOptimalGpuCount (s : Selector) (m : String) (availableGpus : Nat)
    (customer : Option Nat) : Nat :=
  match customer with
  | some c => if c > availableGpus then availableGpus else c
  | none =>
      let avail := if availableGpus < 1 then 1 else availableGpus
      let size := modelSize s m
      if (size = "7B" ∨ size = "8B") ∧ 1 ≤ avail then 1
      else if (size = "13B" ∨ size = "14B") ∧ 2 ≤ avail then 2
      else if (size = "32B" ∨ size = "34B") ∧ 4 ≤ avail then 4
      else if (size = "70B" ∨ size = "72B") ∧ 8 ≤ avail then 8
      else avail

/-- The auto-selection branch of `_select_best_precision`. -/
def autoPrecision (s : Selector) (m : String) : String :=
  let size := modelSize s m
  if size = "7B" ∨ size = "8B" then "fp16"
  else if size = "13B" ∨ size = "14B" then "bf16"
  else "bf16"

/-- `_select_best_precision(model_id, customer_precision)`; the customer
value is used only when truthy (a nonempty string). -/
def selectBestPrecision (s : Selector) (m : String) (customer : Option String) :
    String :=
  match customer with
  | some p => if p = "" then autoPrecision s m else p
  | none => autoPrecision s m

/-- `select_best_recipe(model_id, gpu_count, precision, backend)`.
`hostDetected` stands for the result of `_detect_available_gpus()`, consulted
only when no gpu count is given. -/
def selectBestRecipe (s : Selector) (hostDetected : Nat) (m : String)
    (gpuCount : Option Nat) (precision : Option String) (b : Backend) :
    Option Recipe :=
  let ag : Nat × Nat :=
    match gpuCount with
    | some g => (g, g)
    | none => (hostDetected, getOptimalGpuCount s m hostDetected none)
  let availableGpus := ag.1
  let optimalGpuCount := ag.2
  let optimalPrecision := selectBestPrecision s m precision
  match findMatchingRecipes s m optimalGpuCount optimalPrecision b with
  | r :: _ => some r
  | [] =>
      match (List.filter (fun ap => decide (ap ≠ optimalPrecision))
          ["bf16", "fp16", "fp8"]).findSome?
          (fun ap => (findMatchingRecipes s m optimalGpuCount ap b).head?) with
      | some r => some r
      | none =>
          (List.filter (fun ag2 => decide (ag2 ≠ optimalGpuCount ∧ ag2 ≤ availableGpus))
              [1, 2, 4, 8]).findSome?
            (fun ag2 => (findMatchingRecipes s m ag2 optimalPrecision b).head?)

/-- `get_recipe_config(recipe, gpu_count, backend)`. -/
def getRecipeConfig (r : Recipe) (g : Nat) (b : Backend) : Option Slot :=
  match lookupSlot r b g with
  | none => none
  | some sl => if sl.isEnabled then some sl else none

/-- The dictionary returned by `get_optimal_configuration`. -/
structure OptimalConfig where
  recipe_id : String
  model_id : String
  gpu_count : Nat
  precision : String
  backend : Backend
  config : Slot
  available_gpus : Nat
  container_gpus : Nat
  host_gpus : Nat
  deriving DecidableEq, Repr

/-- The body of `get_optimal_configuration` after `actual_gpu_count` and
`actual_precision` have been computed: the first `select_best_recipe` call,
the descending gpu-count ladder, the precision ladder, and the final
`get_recipe_config` extraction. -/
def getOptimalConfigurationCore (s : Selector) (vllmGpus containerGpus hostGpus : Nat)
    (m : String) (actualGpu : Nat) (actualPrec : String) (b : Backend) :
    Option OptimalConfig :=
  let found : Option (Recipe × Nat × String) :=
    match selectBestRecipe s hostGpus m (some actualGpu) (some actualPrec) b with
    | some r => some (r, actualGpu, actualPrec)
    | none =>
        match (List.filter (fun g => decide (g ≤ vllmGpus)) [8, 4, 2, 1]).findSome?
            (fun g => (selectBestRecipe s hostGpus m (some g) (some actualPrec) b).map
              (fun r => (r, g))) with
        | some (r, g) => some (r, g, actualPrec)
        | none =>
            ((List.filter (fun p => decide (p ≠ actualPrec)) ["bf16", "fp16", "fp8"]).flatMap
                (fun p => (List.filter (fun g => decide (g ≤ vllmGpus)) [8, 4, 2, 1]).map
                  (fun g => (p, g)))).findSome?
              (fun pg => (selectBestRecipe s hostGpus m (some pg.2) (some pg.1) b).map
                (fun r => (r, pg.2, pg.1)))
  match found with
  | none => none
  | some (r, g, p) =>
      match getRecipeConfig r g b with
      | none => none
      | some cfg =>
          some { recipe_id := r.recipe_id, model_id := m, gpu_count := g,
                 precision := p, backend := b, config := cfg,
                 available_gpus := vllmGpus, container_gpus := containerGpus,
                 host_gpus := hostGpus }

/-- `get_optimal_configuration(model_id, customer_gpu_count, customer_precision,
backend)`.  The three probe results (`_detect_vllm_gpus`, `_detect_container_gpus`,
`_detect_available_gpus`) are passed in as values. -/
def getOptimalConfiguration (s : Selector) (vllmGpus containerGpus hostGpus : Nat)
    (m : String) (customerGpuCount : Option Nat) (customerPrecision : Option String)
    (b : Backend) : Option OptimalConfig :=
  getOptimalConfigurationCore s vllmGpus containerGpus hostGpus m
    (getOptimalGpuCount s m vllmGpus customerGpuCount)
    (selectBestPrecision s m customerPrecision) b

/-- Observable outcome of one external detection method: the call raised an
exception, ran with a nonzero exit status, or ran successfully and its output
parsed to the count `n`. -/
inductive MethodOutcome where
  | raised
  | failed
  | ok (n : Nat)
  deriving DecidableEq, Repr

/-- Observable outcome of the PyTorch query inside `_detect_container_gpus`:
`import torch` raised, `torch.cuda.is_available()` was false, or it was true
with `torch.cuda.device_count() = n`. -/
inductive TorchOutcome where
  | importError
  | unavailable
  | available (n : Nat)
  deriving DecidableEq, Repr

/-- `int(os.environ.get('CUDA_VISIBLE_DEVICES', '0').count(',') + 1)`:
the fallback count derived from the visibility environment variable. -/
def cvdFallback (cvd : Option String) : Nat :=
  ((cvd.getD "0").data.count ',') + 1

/-- `_detect_available_gpus`: try `rocm-smi`, then `nvidia-smi`; a raised
exception anywhere in the `try` block goes straight to the environment
fallback. -/
def detectAvailableGpus (rocm nvidia : MethodOutcome) (cvd : Option String) : Nat :=
  match rocm with
  | .raised => cvdFallback cvd
  | .ok n => n
  | .failed =>
      match nvidia with
      | .raised => cvdFallback cvd
      | .ok n => n
      | .failed => cvdFallback cvd

/-- `_detect_container_gpus`: PyTorch first, then `rocm-smi`, then
`nvidia-smi`, then the environment fallback. -/
def detectContainerGpus (torch : TorchOutcome) (rocm nvidia : MethodOutcome)
    (cvd : Option String) : Nat :=
  match torch with
  | .importError => cvdFallback cvd
  | .available n => n
  | .unavailable =>
      match rocm with
      | .raised => cvdFallback cvd
      | .ok n => n
      | .failed =>
          match nvidia with
          | .raised => cvdFallback cvd
          | .ok n => n
          | .failed => cvdFallback cvd

/-- `_detect_vllm_gpus`: the subprocess PyTorch probe wins only with a
positive count; otherwise fall back to container detection, and to 1 when
that reports zero. -/
def detectVllmGpus (probe : MethodOutcome) (torch : TorchOutcome)
    (rocm nvidia : MethodOutcome) (cvd : Option String) : Nat :=
  let fromProbe : Option Nat :=
    match probe with
    | .ok n => if n > 0 then some n else none
    | _ => none
  match fromProbe with
  | some n => n
  | none =>
      let c := detectContainerGpus torch rocm nvidia cvd
      if c > 0 then c else 1

/-- Modelled from the spec words for claim C6, for comparison with the code:
"first method returning a positive count wins for that tier; if all methods
fail or return zero, the tier falls back to a count derived from a visibility
environment variable, and if that too is absent, to 1."  `none` is a failed
method, `some n` a method that returned the count `n`. -/
def specTierFirstPositive (methodCounts : List (Option Nat)) (cvd : Option String) : Nat :=
  match methodCounts.findSome?
      (fun o => match o with
        | some n => if n > 0 then some n else none
        | none => none) with
  | some n => n
  | none => cvdFallback cvd

/-- The backend entrypoint token of `_build_command`. -/
def backendEntry : Backend → String
  | .vllm => "python -m vllm.entrypoints.openai.api_server"
  | .sglang => "python -m sglang.launch_server"

/-- The dash-stripping of arg keys in `_build_command`. -/
def stripDashes (k : String) : String :=
  if strStartsWith k "--" then strDrop k 2
  else if strStartsWith k "-" then strDrop k 1
  else k

/-- `_build_command(recipe_config, backend, port)` from
`aim_config_generator.py`: the backend entrypoint followed by each arg as
`--key value`, with the caller's `port` substituted for any `port` key. -/
def buildCommand (cfg : Slot) (b : Backend) (port : Nat) : String :=
  cfg.args.foldl
    (fun cmd kv =>
      let key := stripDashes kv.1
      if key = "port" then cmd ++ " --" ++ key ++ " " ++ toString port
      else cmd ++ " --" ++ key ++ " " ++ kv.2)
    (backendEntry b)

/-- Whether `"trust-remote-code"` occurs, case-insensitively, in a string:
the marker scan `"trust-remote-code" in str(recipe).lower()` applied to one
fragment of the serialized recipe. -/
def containsTrustMarker (s : String) : Bool :=
  let t := (pyLower s).data
  (List.range (t.length + 1)).any
    (fun i => "trust-remote-code".data.isPrefixOf (t.drop i))

/-- The marker scan over a recipe: `str(recipe)` serializes every key and
value, so the scan is modelled over the recipe's string fields and all slot
arg keys and values. -/
def recipeHasTrustMarker (r : Recipe) : Bool :=
  let slotTexts := fun (sec : Option (List (Nat × Slot))) =>
    (sec.getD []).flatMap (fun e => e.2.args.flatMap (fun kv => [kv.1, kv.2]))
  containsTrustMarker r.recipe_id || containsTrustMarker r.huggingface_id ||
    containsTrustMarker (r.precision.getD "") ||
    ((slotTexts r.vllm_serve ++ slotTexts r.sglang_serve).any containsTrustMarker)

/-- `_build_environment(recipe, precision, backend)`. -/
def buildEnvironment (r : Recipe) (precision : String) (b : Backend) :
    List (String × String) :=
  let base := [("PYTHONUNBUFFERED", "1"), ("CUDA_VISIBLE_DEVICES", "0,1,2,3,4,5,6,7")]
  let withPrec :=
    if precision = "bf16" then base ++ [("VLLM_USE_BF16", "1")]
    else if precision = "fp16" then base ++ [("VLLM_USE_FP16", "1")]
    else if precision = "fp8" then base ++ [("VLLM_USE_FP8", "1")]
    else base
  let withBackend :=
    match b with
    | .vllm => withPrec ++ [("VLLM_DISABLE_CUSTOM_ALLREDUCE", "1")]
    | .sglang => withPrec ++ [("SGLANG_DISABLE_CUSTOM_ALLREDUCE", "1")]
  if recipeHasTrustMarker r then withBackend ++ [("HF_HUB_TRUST_REMOTE_CODE", "1")]
  else withBackend

/-- `_build_volumes(recipe)`. -/
def buildVolumes : List String :=
  ["/tmp/.cache:/tmp/.cache", "~/.cache/huggingface:/root/.cache/huggingface"]

/-- The dictionary returned by `generate_config`. -/
structure GeneratedConfig where
  recipe_id : String
  model_id : String
  gpu_count : Nat
  precision : String
  backend : Backend
  port : Nat
  command : String
  environment : List (String × String)
  volumes : List String
  args : List (String × String)
  deriving DecidableEq, Repr

/-- `generate_config(recipe, gpu_count, precision, backend, port)` from
`aim_config_generator.py`; each `raise ValueError(...)` becomes an
`Except.error` with the corresponding message. -/
def generateConfig (r : Recipe) (g : Nat) (precision : String) (b : Backend)
    (port : Nat) : Except String GeneratedConfig :=
  match r.serve b with
  | none => .error ("Backend not supported in recipe " ++ r.recipe_id)
  | some entries =>
      match (entries.find? (fun e => e.1 == g)).map Prod.snd with
      | none => .error ("GPU count " ++ toString g ++ " not supported in recipe " ++ r.recipe_id)
      | some sl =>
          if sl.isEnabled then
            .ok { recipe_id := r.recipe_id, model_id := r.huggingface_id,
                  gpu_count := g, precision := precision, backend := b,
                  port := port, command := buildCommand sl b port,
                  environment := buildEnvironment r precision b,
                  volumes := buildVolumes, args := sl.args }
          else
            .error ("Configuration for " ++ toString g ++
              " GPUs is disabled in recipe " ++ r.recipe_id)

/-- The fixed set of boolean-only flags of `convert_args_to_command_line`
in `aim_generate_command.py`. -/
def booleanFlags : List String :=
  ["--trust-remote-code", "--enforce-eager", "--disable-sliding-window",
   "--disable-cascade-attn", "--skip-tokenizer-init", "--enable-prompt-embeds",
   "--disable-async-output-proc", "--enable-sleep-mode", "--enable-lora",
   "--enable-lora-bias", "--fully-sharded-loras", "--enable-prompt-adapter",
   "--enable-reasoning", "--enable-prefix-caching", "--calculate-kv-scales",
   "--disable-mm-preprocessor-cache", "--enable-chunked-prefill",
   "--disable-chunked-mm-input", "--disable-hybrid-kv-cache-manager",
   "--use-v2-block-manager", "--disable-log-stats", "--disable-log-requests",
   "--disable-fastapi-docs", "--enable-prompt-tokens-details",
   "--enable-force-include-usage", "--enable-server-load-tracking",
   "--multi-step-stream-outputs", "--eplb-log-balancedness",
   "--ray-workers-use-nsight", "--disable-custom-all-reduce",
   "--enable-multimodal-encoder-data-parallel"]

/-- The loop body of `convert_args_to_command_line`: the emitted fragment
for one `(key, value)` pair, or `none` when the pair is dropped. -/
def emitArg (kv : String × String) : Option String :=
  let flag := if strStartsWith kv.1 "--" then kv.1 else "--" ++ kv.1
  if flag ∈ booleanFlags then
    if pyLower (pyStrip kv.2) ∈ ["true", "1", "yes"] then some flag else none
  else some (flag ++ " " ++ kv.2)

/-- The `args_list` accumulated by `convert_args_to_command_line`. -/
def convertArgsList (args : List (String × String)) : List String :=
  args.foldl
    (fun acc kv =>
      let flag := if strStartsWith kv.1 "--" then kv.1 else "--" ++ kv.1
      if flag ∈ booleanFlags then
        if pyLower (pyStrip kv.2) ∈ ["true", "1", "yes"] then acc ++ [flag] else acc
      else acc ++ [flag ++ " " ++ kv.2])
    []

/-- `convert_args_to_command_line(args_dict)` from `aim_generate_command.py`. -/
def convertArgsToCommandLine (args : List (String × String)) : String :=
  " ".intercalate (convertArgsList args)

/-!
Instrumented (traced) variants of the resolver.  They follow exactly the
control flow of the plain definitions above but additionally record, in
order, every `(precision, gpu_count)` combination handed to
`find_matching_recipes`.  They are used to reason about the set of
combinations the resolver attempts.
-/

/-- One `find_matching_recipes` consultation followed by `alt_recipes[0]`. -/
def attemptCombo (s : Selector) (m : String) (b : Backend) (p : String)
    (g : Nat) : Option Recipe :=
  (findMatchingRecipes s m g p b).head?

/-- Try a list of combinations in order, stopping at the first hit, recording
every combination consulted. -/
def tryCombosT (s : Selector) (m : String) (b : Backend) :
    List (String × Nat) → Option Recipe × List (String × Nat)
  | [] => (none, [])
  | (p, g) :: rest =>
      match attemptCombo s m b p g with
      | some r => (some r, [(p, g)])
      | none =>
          let t := tryCombosT s m b rest
          (t.1, (p, g) :: t.2)

/-- `select_best_recipe` with its attempted combinations. -/
def selectBestRecipeT (s : Selector) (hostDetected : Nat) (m : String)
    (gpuCount : Option Nat) (precision : Option String) (b : Backend) :
    Option Recipe × List (String × Nat) :=
  let ag : Nat × Nat :=
    match gpuCount with
    | some g => (g, g)
    | none => (hostDetected, getOptimalGpuCount s m hostDetected none)
  let availableGpus := ag.1
  let g0 := ag.2
  let p0 := selectBestPrecision s m precision
  match attemptCombo s m b p0 g0 with
  | some r => (some r, [(p0, g0)])
  | none =>
      let phase2 := (List.filter (fun ap => decide (ap ≠ p0)) ["bf16", "fp16", "fp8"]).map
        (fun ap => (ap, g0))
      let t2 := tryCombosT s m b phase2
      match t2.1 with
      | some r => (some r, (p0, g0) :: t2.2)
      | none =>
          let phase3 := (List.filter (fun ag2 => decide (ag2 ≠ g0 ∧ ag2 ≤ availableGpus))
              [1, 2, 4, 8]).map (fun ag2 => (p0, ag2))
          let t3 := tryCombosT s m b phase3
          (t3.1, (p0, g0) :: (t2.2 ++ t3.2))

/-- The descending gpu-count ladder of `get_optimal_configuration`, traced. -/
def tryGpuLadderT (s : Selector) (hostGpus : Nat) (m : String) (p : String)
    (b : Backend) : List Nat → Option (Recipe × Nat) × List (String × Nat)
  | [] => (none, [])
  | g :: rest =>
      let t := selectBestRecipeT s hostGpus m (some g) (some p) b
      match t.1 with
      | some r => (some (r, g), t.2)
      | none =>
          let t' := tryGpuLadderT s hostGpus m p b rest
          (t'.1, t.2 ++ t'.2)

/-- The precision ladder of `get_optimal_configuration`, traced. -/
def tryPrecLadderT (s : Selector) (vllmGpus hostGpus : Nat) (m : String)
    (b : Backend) : List String → Option (Recipe × Nat × String) × List (String × Nat)
  | [] => (none, [])
  | p :: rest =>
      let t := tryGpuLadderT s hostGpus m p b
        (List.filter (fun g => decide (g ≤ vllmGpus)) [8, 4, 2, 1])
      match t.1 with
      | some (r, g) => (some (r, g, p), t.2)
      | none =>
          let t' := tryPrecLadderT s vllmGpus hostGpus m b rest
          (t'.1, t.2 ++ t'.2)

/-- `get_optimal_configuration`, traced: the result together with every
`(precision, gpu_count)` combination consulted during the resolution. -/
def getOptimalConfigurationT (s : Selector) (vllmGpus containerGpus hostGpus : Nat)
    (m : String) (customerGpuCount : Option Nat) (customerPrecision : Option String)
    (b : Backend) : Option OptimalConfig × List (String × Nat) :=
  let actualGpu := getOptimalGpuCount s m vllmGpus customerGpuCount
  let actualPrec := selectBestPrecision s m customerPrecision
  let t1 := selectBestRecipeT s hostGpus m (some actualGpu) (some actualPrec) b
  let ft : Option (Recipe × Nat × String) × List (String × Nat) :=
    match t1.1 with
    | some r => (some (r, actualGpu, actualPrec), t1.2)
    | none =>
        let tA := tryGpuLadderT s hostGpus m actualPrec b
          (List.filter (fun g => decide (g ≤ vllmGpus)) [8, 4, 2, 1])
        match tA.1 with
        | some (r, g) => (some (r, g, actualPrec), t1.2 ++ tA.2)
        | none =>
            let tB := tryPrecLadderT s vllmGpus hostGpus m b
              (List.filter (fun p => decide (p ≠ actualPrec)) ["bf16", "fp16", "fp8"])
            (tB.1, t1.2 ++ tA.2 ++ tB.2)
  match ft.1 with
  | none => (none, ft.2)
  | some (r, g, p) =>
      match getRecipeConfig r g b with
      | none => (none, ft.2)
      | some cfg =>
          (some { recipe_id := r.recipe_id, model_id := m, gpu_count := g,
                  precision := p, backend := b, config := cfg,
                  available_gpus := vllmGpus, container_gpus := containerGpus,
                  host_gpus := hostGpus }, ft.2)

/-!
Concrete catalogs used to evaluate the claims on explicit inputs.
-/

/-- Scenario B of the spec: a 32B model whose bf16 recipe enables the
`vllm` slots for 1, 2 and 4 GPUs and has no 8-GPU slot. -/
def scenBRecipe : Recipe :=
  { recipe_id := "org-model-32b-bf16", huggingface_id := "Org/Model-32B",
    precision := some "bf16",
    vllm_serve := some
      [(1, ⟨some true, [("model", "Org/Model-32B"), ("tensor-parallel-size", "1")]⟩),
       (2, ⟨some true, [("model", "Org/Model-32B"), ("tensor-parallel-size", "2")]⟩),
       (4, ⟨some true, [("model", "Org/Model-32B"), ("tensor-parallel-size", "4")]⟩)],
    sglang_serve := none }

/-- The catalog holding scenario B's model and recipe. -/
def scenBSelector : Selector :=
  { models := [("Org/Model-32B", { huggingface_id := "Org/Model-32B", size := some "32B" })],
    recipes := [scenBRecipe] }

/-- A 32B model's bf16 recipe enabling only the 4-GPU `vllm` slot. -/
def mixedBf16Recipe : Recipe :=
  { recipe_id := "org-model-32c-bf16", huggingface_id := "Org/Model-32C",
    precision := some "bf16",
    vllm_serve := some [(4, ⟨some true, [("dtype", "bfloat16")]⟩)],
    sglang_serve := none }

/-- The same model's fp16 recipe enabling only the 8-GPU `vllm` slot. -/
def mixedFp16Recipe : Recipe :=
  { recipe_id := "org-model-32c-fp16", huggingface_id := "Org/Model-32C",
    precision := some "fp16",
    vllm_serve := some [(8, ⟨some true, [("dtype", "float16")]⟩)],
    sglang_serve := none }

/-- The catalog holding both mixed-precision recipes. -/
def mixedSelector : Selector :=
  { models := [("Org/Model-32C", { huggingface_id := "Org/Model-32C", size := some "32B" })],
    recipes := [mixedBf16Recipe, mixedFp16Recipe] }

/-- A recipe whose 2-GPU `vllm` slot is present but lacks the `enabled`
field. -/
def noEnabledFieldRecipe : Recipe :=
  { recipe_id := "org-model-7b-fp16", huggingface_id := "Org/Model-7B",
    precision := some "fp16",
    vllm_serve := some [(2, ⟨none, [("dtype", "float16")]⟩)],
    sglang_serve := none }

/-!
Theorems.
-/

/-- C1.  On spec scenario B — the 32B model whose bf16 recipe enables
exactly the 1-, 2- and 4-GPU `vllm` slots, with `runtime_visible = 8` and a
request for 8 GPUs — the resolver does NOT fall back to the enabled 4-GPU
slot at the same precision: `select_best_recipe`'s internal fallback returns
the recipe found at 1 GPU, `get_optimal_configuration` never updates
`actual_gpu_count`, and the final `get_recipe_config(recipe, 8, backend)`
lookup fails, so the resolution returns no configuration at all, even though
an enabled 4-GPU bf16 slot exists within the runtime-visible budget. -/
theorem scenarioB_resolution_returns_none :
    recipeMatches scenBRecipe 4 "bf16" .vllm = true ∧ (4 : Nat) ≤ 8 ∧
      getOptimalConfiguration scenBSelector 8 8 8 "Org/Model-32B" (some 8) none .vllm =
        none := by
  refine ⟨by decide, by decide, by decide⟩

/-- C3.  With candidate `(bf16, 8)`, a bf16 recipe enabling the 4-GPU slot
and an fp16 recipe enabling the 8-GPU slot, the code returns the fp16
recipe's 8-GPU slot — so precision is varied *before* the fixed-precision
gpu-count ladder could find `(bf16, 4)` — and the `precision` field of the
returned configuration still reads `bf16` although the served recipe is the
fp16 one: the precision field is not updated to the matched value. -/
theorem precision_varied_before_gpu_fallback_eval :
    recipeMatches mixedBf16Recipe 4 "bf16" .vllm = true ∧ (4 : Nat) ≤ 8 ∧
      getOptimalConfiguration mixedSelector 8 8 8 "Org/Model-32C" (some 8) (some "bf16") .vllm =
        some { recipe_id := "org-model-32c-fp16", model_id := "Org/Model-32C",
               gpu_count := 8, precision := "bf16", backend := .vllm,
               config := ⟨some true, [("dtype", "float16")]⟩,
               available_gpus := 8, container_gpus := 8, host_gpus := 8 } := by
  refine ⟨by decide, by decide, by decide⟩

/-- C6 counterexample.  In the host tier, a first method that runs
successfully but reports zero GPUs determines the tier's result as 0: the
tier neither passes over the zero to the next method (which here reports 3)
nor falls back to the environment-derived count, contradicting the claimed
"first method returning a positive count wins, else environment fallback"
behavior, under which the result would be 3. -/
theorem tier_zero_count_counterexample :
    detectAvailableGpus (.ok 0) (.ok 3) none = 0 ∧
      specTierFirstPositive [some 0, some 3] none = 3 ∧ (0 : Nat) ≠ 3 := by
  refine ⟨by decide, by decide, by decide⟩

/-- C7 counterexample.  For a model id with no catalog entry and no recipe,
the resolution returns the bare value `none`, which carries no
attempted-combinations payload, while the combinations actually consulted
during that very resolution (recorded by the instrumented resolver) form a
nonempty list — so the failure outcome neither carries the attempt list nor
is that list empty for an unknown model. -/
theorem unknown_model_attempts_counterexample :
    getOptimalConfiguration scenBSelector 8 8 8 "unknown/model" none none .vllm = none ∧
      (getOptimalConfigurationT scenBSelector 8 8 8 "unknown/model" none none .vllm).1 = none ∧
      (getOptimalConfigurationT scenBSelector 8 8 8 "unknown/model" none none .vllm).2 ≠ [] := by
  refine ⟨by decide, by decide, by decide⟩

/-- C8 counterexample.  The ConfigSynthesizer's `_build_command` has no
boolean-flag handling: with slot args `{"enable-prefix-caching": "false"}`
the synthesized command still contains `--enable-prefix-caching false`
instead of omitting the flag, and with value `"true"` it emits
`--enable-prefix-caching true` instead of a bare flag. -/
theorem build_command_ignores_boolean_flags :
    buildCommand ⟨some true, [("enable-prefix-caching", "false")]⟩ .vllm 8000 =
        "python -m vllm.entrypoints.openai.api_server --enable-prefix-caching false" ∧
      buildCommand ⟨some true, [("enable-prefix-caching", "true")]⟩ .vllm 8000 =
        "python -m vllm.entrypoints.openai.api_server --enable-prefix-caching true" := by
  refine ⟨by decide, by decide⟩

/-- The accumulator loop of `convert_args_to_command_line` emits, per arg
pair, exactly the fragment described by `emitArg`. -/
theorem convertArgsList_foldl_eq (args : List (String × String)) (acc : List String) :
    args.foldl
      (fun acc kv =>
        let flag := if strStartsWith kv.1 "--" then kv.1 else "--" ++ kv.1
        if flag ∈ booleanFlags then
          if pyLower (pyStrip kv.2) ∈ ["true", "1", "yes"] then acc ++ [flag] else acc
        else acc ++ [flag ++ " " ++ kv.2])
      acc = acc ++ args.filterMap emitArg := by
  induction args generalizing acc with
  | nil => simp
  | cons kv rest ih =>
      rw [List.foldl_cons, List.filterMap_cons]
      have hstep : (let flag := if strStartsWith kv.1 "--" then kv.1 else "--" ++ kv.1
          if flag ∈ booleanFlags then
            if pyLower (pyStrip kv.2) ∈ ["true", "1", "yes"] then acc ++ [flag] else acc
          else acc ++ [flag ++ " " ++ kv.2]) = acc ++ (emitArg kv).toList := by
        unfold emitArg
        dsimp only
        split_ifs <;> simp
      rw [hstep, ih]
      cases emitArg kv <;> simp

/-- C8 (amended).  The boolean-flag behavior belongs to the standalone
command-line converter `convert_args_to_command_line`, not to the
synthesizer's `_build_command`: the converter emits, pairwise in arg order,
a bare flag for a key in the fixed boolean set exactly when the stripped,
lowercased value is one of `true`, `1`, `yes`, omits such a key otherwise,
and emits every other key as `--key value`; in particular
`{"enable-prefix-caching": "true"}` converts to the bare flag and
`{"enable-prefix-caching": "false"}` converts to the empty argument string. -/
theorem converter_boolean_flag_emission :
    (∀ args : List (String × String), convertArgsList args = args.filterMap emitArg) ∧
      (∀ kv : String × String,
        (if strStartsWith kv.1 "--" then kv.1 else "--" ++ kv.1) ∈ booleanFlags →
          emitArg kv =
            (if pyLower (pyStrip kv.2) ∈ (["true", "1", "yes"] : List String) then
              some (if strStartsWith kv.1 "--" then kv.1 else "--" ++ kv.1)
            else none)) ∧
      (∀ kv : String × String,
        (if strStartsWith kv.1 "--" then kv.1 else "--" ++ kv.1) ∉ booleanFlags →
          emitArg kv =
            some ((if strStartsWith kv.1 "--" then kv.1 else "--" ++ kv.1) ++ " " ++ kv.2)) ∧
      convertArgsToCommandLine [("enable-prefix-caching", "true")] = "--enable-prefix-caching" ∧
      convertArgsToCommandLine [("enable-prefix-caching", "false")] = "" := by
  refine ⟨?_, ?_, ?_, by decide, by decide⟩
  · intro args
    unfold convertArgsList
    simpa using convertArgsList_foldl_eq args []
  · intro kv h
    unfold emitArg
    simp [h]
  · intro kv h
    unfold emitArg
    simp [h]

/-- Witness for `converter_boolean_flag_emission` at a concrete boolean
flag with a truthy, differently-cased value. -/
theorem converter_boolean_flag_witness :
    emitArg ("enable-prefix-caching", "True") = some "--enable-prefix-caching" := by
  have h := converter_boolean_flag_emission.2.1 ("enable-prefix-caching", "True") (by decide)
  rw [h]
  decide

/-- C9.  The synthesized command's port value always equals the `port`
parameter of `_build_command`: the command is invariant under changing the
value stored beneath any args key that dash-strips to `port`, and a `port`
arg is emitted with the caller's port, never with the stored value. -/
theorem port_parameter_always_wins :
    (∀ (e : Option Bool) (b : Backend) (port : Nat) (pre post : List (String × String))
        (k v v' : String), stripDashes k = "port" →
        buildCommand ⟨e, pre ++ (k, v) :: post⟩ b port =
          buildCommand ⟨e, pre ++ (k, v') :: post⟩ b port) ∧
      buildCommand ⟨some true, [("port", "9999")]⟩ .vllm 8000 =
        "python -m vllm.entrypoints.openai.api_server --port 8000" ∧
      buildCommand ⟨some true, [("--port", "9999")]⟩ .sglang 1234 =
        "python -m sglang.launch_server --port 1234" := by
  refine ⟨?_, by decide, by decide⟩
  intro e b port pre post k v v' h
  unfold buildCommand
  dsimp only
  rw [List.foldl_append, List.foldl_append, List.foldl_cons, List.foldl_cons]
  congr 1
  simp [h]

/-- Witness for `port_parameter_always_wins`: changing the stored value of
a `port` arg does not change the synthesized command. -/
theorem port_parameter_witness :
    buildCommand ⟨some true, [("port", "1111")]⟩ .vllm 80 =
      buildCommand ⟨some true, [("port", "2222")]⟩ .vllm 80 :=
  port_parameter_always_wins.1 (some true) .vllm 80 [] [] "port" "1111" "2222" (by decide)

/-- C6 (amended).  In the host and container tiers the first method that
completes successfully determines the tier's result even when its count is
zero; a method that raises an exception aborts the remaining methods of the
tier and falls straight back to the count derived from the visibility
environment variable (1 when the variable is absent); the container tier
behaves, after its PyTorch query, exactly like the host tier; and only the
runtime (vLLM) tier requires a positive count from its probe, falling back
to the container tier's count when positive and to 1 otherwise. -/
theorem detection_tier_behavior :
    (∀ (nv : MethodOutcome) (cvd : Option String) (n : Nat),
        detectAvailableGpus (.ok n) nv cvd = n) ∧
      (∀ (nv : MethodOutcome) (cvd : Option String),
        detectAvailableGpus .raised nv cvd = cvdFallback cvd) ∧
      (∀ (cvd : Option String) (n : Nat), detectAvailableGpus .failed (.ok n) cvd = n) ∧
      (∀ cvd : Option String, detectAvailableGpus .failed .failed cvd = cvdFallback cvd ∧
        detectAvailableGpus .failed .raised cvd = cvdFallback cvd) ∧
      cvdFallback none = 1 ∧
      (∀ (r nv : MethodOutcome) (cvd : Option String) (n : Nat),
        detectContainerGpus (.available n) r nv cvd = n) ∧
      (∀ (r nv : MethodOutcome) (cvd : Option String),
        detectContainerGpus .importError r nv cvd = cvdFallback cvd) ∧
      (∀ (r nv : MethodOutcome) (cvd : Option String),
        detectContainerGpus .unavailable r nv cvd = detectAvailableGpus r nv cvd) ∧
      (∀ (t : TorchOutcome) (r nv : MethodOutcome) (cvd : Option String) (n : Nat),
        0 < n → detectVllmGpus (.ok n) t r nv cvd = n) ∧
      (∀ (t : TorchOutcome) (r nv : MethodOutcome) (cvd : Option String),
        detectVllmGpus .failed t r nv cvd =
          (if 0 < detectContainerGpus t r nv cvd then detectContainerGpus t r nv cvd else 1) ∧
        detectVllmGpus .raised t r nv cvd =
          (if 0 < detectContainerGpus t r nv cvd then detectContainerGpus t r nv cvd else 1) ∧
        detectVllmGpus (.ok 0) t r nv cvd =
          (if 0 < detectContainerGpus t r nv cvd then detectContainerGpus t r nv cvd else 1)) := by
  refine ⟨fun nv cvd n => rfl, fun nv cvd => rfl, fun cvd n => rfl,
    fun cvd => ⟨rfl, rfl⟩, by decide, fun r nv cvd n => rfl, fun r nv cvd => rfl,
    ?_, ?_, ?_⟩
  · intro r nv cvd
    cases r <;> rfl
  · intro t r nv cvd n h
    simp [detectVllmGpus, h]
  · intro t r nv cvd
    refine ⟨rfl, rfl, rfl⟩

/-- Witness for `detection_tier_behavior`: the runtime tier returns its
probe's positive count. -/
theorem detection_tier_witness :
    detectVllmGpus (.ok 2) .unavailable .failed .failed none = 2 :=
  detection_tier_behavior.2.2.2.2.2.2.2.2.1 .unavailable .failed .failed none 2 (by decide)

/-- C10.  A slot present under its `(backend, gpu_count)` key but lacking
the `enabled` field behaves exactly like one with `enabled = false`:
`find_matching_recipes` rejects (skips) the recipe for that combination,
`get_recipe_config` returns no configuration, and `generate_config` raises
the "disabled" configuration error. -/
theorem missing_enabled_field_treated_as_disabled :
    (∀ args : List (String × String),
        (Slot.mk none args).isEnabled = false ∧
        (Slot.mk none args).isEnabled = (Slot.mk (some false) args).isEnabled) ∧
      (∀ (s : Selector) (m : String) (g : Nat) (p : String) (b : Backend) (r : Recipe) (sl : Slot),
        lookupSlot r b g = some sl → sl.enabled = none →
        recipeMatches r g p b = false ∧ r ∉ findMatchingRecipes s m g p b) ∧
      (∀ (r : Recipe) (g : Nat) (b : Backend) (sl : Slot),
        lookupSlot r b g = some sl → sl.enabled = none → getRecipeConfig r g b = none) ∧
      (∀ (r : Recipe) (g : Nat) (prec : String) (b : Backend) (port : Nat) (sl : Slot),
        lookupSlot r b g = some sl → sl.enabled = none →
        generateConfig r g prec b port =
          .error ("Configuration for " ++ toString g ++ " GPUs is disabled in recipe " ++
            r.recipe_id)) := by
  have hen : ∀ sl : Slot, sl.enabled = none → sl.isEnabled = false := by
    intro sl h
    simp [Slot.isEnabled, h]
  refine ⟨fun args => ⟨rfl, rfl⟩, ?_, ?_, ?_⟩
  · intro s m g p b r sl h1 h2
    have hm : recipeMatches r g p b = false := by
      unfold recipeMatches
      rw [h1]
      dsimp only
      rw [hen sl h2]
      simp
    refine ⟨hm, ?_⟩
    intro hmem
    have := (List.mem_filter.mp hmem).2
    rw [hm] at this
    exact Bool.false_ne_true this
  · intro r g b sl h1 h2
    unfold getRecipeConfig
    rw [h1]
    dsimp only
    rw [hen sl h2]
    simp
  · intro r g prec b port sl h1 h2
    unfold lookupSlot at h1
    unfold generateConfig
    cases hs : r.serve b with
    | none => rw [hs] at h1; exact absurd h1 (by simp)
    | some entries =>
        rw [hs] at h1
        dsimp only at h1 ⊢
        rw [h1]
        dsimp only
        rw [hen sl h2]
        simp

/-- Witness for `missing_enabled_field_treated_as_disabled` on the concrete
recipe whose 2-GPU slot lacks the `enabled` field. -/
theorem missing_enabled_witness :
    getRecipeConfig noEnabledFieldRecipe 2 .vllm = none ∧
      generateConfig noEnabledFieldRecipe 2 "fp16" .vllm 8000 =
        .error ("Configuration for " ++ toString 2 ++ " GPUs is disabled in recipe " ++
          noEnabledFieldRecipe.recipe_id) :=
  ⟨missing_enabled_field_treated_as_disabled.2.2.1 noEnabledFieldRecipe 2 .vllm
      ⟨none, [("dtype", "float16")]⟩ (by decide) rfl,
   missing_enabled_field_treated_as_disabled.2.2.2 noEnabledFieldRecipe 2 "fp16" .vllm 8000
      ⟨none, [("dtype", "float16")]⟩ (by decide) rfl⟩

/-- A customer gpu count not exceeding the available count is used as is. -/
theorem getOptimalGpuCount_some_le (s : Selector) (m : String) (R c : Nat) (h : c ≤ R) :
    getOptimalGpuCount s m R (some c) = c := by
  unfold getOptimalGpuCount
  dsimp only
  rw [if_neg]
  omega

/-- A truthy (nonempty) customer precision is used as is. -/
theorem selectBestPrecision_of_ne_empty (s : Selector) (m : String) (p : String) (h : p ≠ "") :
    selectBestPrecision s m (some p) = p := by
  unfold selectBestPrecision
  dsimp only
  rw [if_neg h]

/-- A model with no recipe in the catalog loads an empty recipe set. -/
theorem loadModelRecipes_eq_nil (s : Selector) (m : String)
    (h : ∀ r ∈ s.recipes, r.huggingface_id ≠ m) : loadModelRecipes s m = [] := by
  unfold loadModelRecipes
  have hf : s.recipes.filter (fun r => r.huggingface_id == m) = [] := by
    rw [List.filter_eq_nil_iff]
    intro r hr
    simp [h r hr]
  rw [hf]
  rfl

/-- When no combination ever matches, `select_best_recipe` returns `None`. -/
theorem selectBestRecipe_none_of_no_match (s : Selector) (host : Nat) (m : String)
    (gc : Option Nat) (pc : Option String) (b : Backend)
    (h : ∀ g p, findMatchingRecipes s m g p b = []) :
    selectBestRecipe s host m gc pc b = none := by
  unfold selectBestRecipe
  dsimp only
  rw [h]
  dsimp only
  rw [List.findSome?_eq_none_iff.mpr (fun x _ => by rw [h]; rfl)]
  dsimp only
  rw [List.findSome?_eq_none_iff.mpr (fun x _ => by rw [h]; rfl)]

/-- C7 (amended).  When no recipe of the model matches at all — in
particular for a model id with no recipe in the catalog — the resolution
returns the bare `None`, a value that carries no attempted-combinations
payload (the attempted combinations themselves are nonempty, as shown by
the instrumented counterexample). -/
theorem no_match_returns_bare_none :
    ∀ (s : Selector) (v c hostG : Nat) (m : String) (cg : Option Nat) (cp : Option String)
      (b : Backend), (∀ r ∈ s.recipes, r.huggingface_id ≠ m) →
      getOptimalConfiguration s v c hostG m cg cp b = none := by
  intro s v c hostG m cg cp b hno
  have hnil := loadModelRecipes_eq_nil s m hno
  have hfm : ∀ g p, findMatchingRecipes s m g p b = [] := by
    intro g p
    unfold findMatchingRecipes
    rw [hnil]
    rfl
  have hsel : ∀ (host : Nat) (gc : Option Nat) (pc : Option String),
      selectBestRecipe s host m gc pc b = none :=
    fun host gc pc => selectBestRecipe_none_of_no_match s host m gc pc b hfm
  unfold getOptimalConfiguration getOptimalConfigurationCore
  rw [hsel]
  dsimp only
  rw [List.findSome?_eq_none_iff.mpr (fun x _ => by rw [hsel]; rfl)]
  dsimp only
  rw [List.findSome?_eq_none_iff.mpr (fun x _ => by rw [hsel]; rfl)]

/-- Witness for `no_match_returns_bare_none` on a model id absent from the
concrete catalog. -/
theorem no_match_witness :
    getOptimalConfiguration scenBSelector 2 2 2 "nobody/none" none none .vllm = none :=
  no_match_returns_bare_none scenBSelector 2 2 2 "nobody/none" none none .vllm (by decide)

/-- C2.  For every enabled slot `(backend, g)` of a precision-`p` recipe of
model `m`, with `g` within the runtime-visible budget (and the recipe being
the unique such match, as in a well-formed catalog), resolving
`(m, gpu = g, precision = p, backend)` succeeds and returns exactly that
recipe's slot, with `gpu_count = g` and `precision = p` in the returned
configuration. -/
theorem exact_enabled_slot_resolves_unchanged :
    ∀ (s : Selector) (vllmGpus containerGpus hostGpus : Nat) (m : String) (g : Nat)
      (p : String) (b : Backend) (r : Recipe),
      p ≠ "" → g ≤ vllmGpus →
      r ∈ loadModelRecipes s m →
      recipeMatches r g p b = true →
      (∀ r' ∈ loadModelRecipes s m, recipeMatches r' g p b = true → r' = r) →
      ∃ sl, lookupSlot r b g = some sl ∧ sl.isEnabled = true ∧
        getOptimalConfiguration s vllmGpus containerGpus hostGpus m (some g) (some p) b =
          some { recipe_id := r.recipe_id, model_id := m, gpu_count := g, precision := p,
                 backend := b, config := sl, available_gpus := vllmGpus,
                 container_gpus := containerGpus, host_gpus := hostGpus } := by
  intro s vllm cont host m g p b r hp hg hmem hmatch huniq
  have hsl : ∃ sl, lookupSlot r b g = some sl ∧ sl.isEnabled = true := by
    unfold recipeMatches at hmatch
    rw [Bool.and_eq_true] at hmatch
    have h2 := hmatch.2
    cases hls : lookupSlot r b g with
    | none => rw [hls] at h2; exact absurd h2 (by simp)
    | some sl =>
        rw [hls] at h2
        exact ⟨sl, rfl, h2⟩
  obtain ⟨sl, hls, hen⟩ := hsl
  refine ⟨sl, hls, hen, ?_⟩
  unfold getOptimalConfiguration
  rw [getOptimalGpuCount_some_le s m vllm g hg, selectBestPrecision_of_ne_empty s m p hp]
  have hfindmem : r ∈ findMatchingRecipes s m g p b := List.mem_filter.mpr ⟨hmem, hmatch⟩
  have hsel : selectBestRecipe s host m (some g) (some p) b = some r := by
    unfold selectBestRecipe
    dsimp only
    rw [selectBestPrecision_of_ne_empty s m p hp]
    cases hf : findMatchingRecipes s m g p b with
    | nil => rw [hf] at hfindmem; exact absurd hfindmem (List.not_mem_nil r)
    | cons r0 t =>
        dsimp only
        have hr0mem : r0 ∈ findMatchingRecipes s m g p b := by
          rw [hf]
          exact List.mem_cons_self r0 t
        have hr0 := List.mem_filter.mp hr0mem
        exact congrArg some (huniq r0 hr0.1 hr0.2)
  unfold getOptimalConfigurationCore
  rw [hsel]
  dsimp only
  have hrc : getRecipeConfig r g b = some sl := by
    unfold getRecipeConfig
    rw [hls]
    dsimp only
    rw [if_pos hen]
  rw [hrc]

/-- Witness for `exact_enabled_slot_resolves_unchanged`: scenario B's recipe
resolved at its exact enabled 4-GPU bf16 slot. -/
theorem exact_enabled_slot_witness :
    getOptimalConfiguration scenBSelector 8 8 8 "Org/Model-32B" (some 4) (some "bf16") .vllm =
      some { recipe_id := "org-model-32b-bf16", model_id := "Org/Model-32B", gpu_count := 4,
             precision := "bf16", backend := .vllm,
             config := ⟨some true, [("model", "Org/Model-32B"), ("tensor-parallel-size", "4")]⟩,
             available_gpus := 8, container_gpus := 8, host_gpus := 8 } := by
  obtain ⟨sl, hls, -, hres⟩ :=
    exact_enabled_slot_resolves_unchanged scenBSelector 8 8 8 "Org/Model-32B" 4 "bf16" .vllm
      scenBRecipe (by decide) (by decide) (by decide) (by decide) (by decide)
  have hX : lookupSlot scenBRecipe .vllm 4 =
      some ⟨some true, [("model", "Org/Model-32B"), ("tensor-parallel-size", "4")]⟩ := by decide
  rw [hX] at hls
  rw [← Option.some.inj hls] at hres
  exact hres

/-- The gpu count chosen before matching never exceeds the available count. -/
theorem getOptimalGpuCount_le (s : Selector) (m : String) (R : Nat) (cg : Option Nat)
    (hR : 1 ≤ R) : getOptimalGpuCount s m R cg ≤ R := by
  unfold getOptimalGpuCount
  cases cg with
  | some c =>
      dsimp only
      split <;> omega
  | none =>
      dsimp only
      have havail : (if R < 1 then 1 else R) = R := by split <;> omega
      rw [havail]
      split_ifs with h2 h3 h4 h5
      · exact hR
      · exact h3.2
      · exact h4.2
      · exact h5.2
      · exact le_refl R

/-- Every configuration produced by the resolver body carries a gpu count
bounded by the runtime-visible count, provided the candidate was. -/
theorem core_gpu_count_le (s : Selector) (vllm cont host : Nat) (m : String)
    (aG : Nat) (aP : String) (b : Backend) (cfg : OptimalConfig) (haG : aG ≤ vllm) :
    getOptimalConfigurationCore s vllm cont host m aG aP b = some cfg →
    cfg.gpu_count ≤ vllm := by
  unfold getOptimalConfigurationCore
  intro h
  cases hsel : selectBestRecipe s host m (some aG) (some aP) b with
  | some r =>
      rw [hsel] at h
      dsimp only at h
      cases hrc : getRecipeConfig r aG b with
      | none => rw [hrc] at h; exact absurd h (by simp)
      | some c0 =>
          rw [hrc] at h
          dsimp only at h
          have he := Option.some.inj h
          rw [← he]
          exact haG
  | none =>
      rw [hsel] at h
      dsimp only at h
      cases hA : (List.filter (fun g => decide (g ≤ vllm)) [8, 4, 2, 1]).findSome?
          (fun g => (selectBestRecipe s host m (some g) (some aP) b).map (fun r => (r, g))) with
      | some rg =>
          rw [hA] at h
          obtain ⟨g0, hg0mem, hg0⟩ := List.exists_of_findSome?_eq_some hA
          have hg0le : g0 ≤ vllm := by
            have := (List.mem_filter.mp hg0mem).2
            simpa using this
          obtain ⟨r0, hr0, hrg⟩ := Option.map_eq_some'.mp hg0
          subst hrg
          dsimp only at h
          cases hrc : getRecipeConfig r0 g0 b with
          | none => rw [hrc] at h; exact absurd h (by simp)
          | some c0 =>
              rw [hrc] at h
              dsimp only at h
              have he := Option.some.inj h
              rw [← he]
              exact hg0le
      | none =>
          rw [hA] at h
          dsimp only at h
          cases hB : ((List.filter (fun p => decide (p ≠ aP)) ["bf16", "fp16", "fp8"]).flatMap
              (fun p => (List.filter (fun g => decide (g ≤ vllm)) [8, 4, 2, 1]).map
                (fun g => (p, g)))).findSome?
              (fun pg => (selectBestRecipe s host m (some pg.2) (some pg.1) b).map
                (fun r => (r, pg.2, pg.1))) with
          | none => rw [hB] at h; exact absurd h (by simp)
          | some rgp =>
              rw [hB] at h
              obtain ⟨pg, hpgmem, hpg⟩ := List.exists_of_findSome?_eq_some hB
              have hpg2 : pg.2 ≤ vllm := by
                rcases List.mem_flatMap.mp hpgmem with ⟨p0, hp0, hpgin⟩
                rcases List.mem_map.mp hpgin with ⟨g0, hg0, hpgeq⟩
                have := (List.mem_filter.mp hg0).2
                rw [← hpgeq]
                simpa using this
              obtain ⟨r0, hr0, hrgp⟩ := Option.map_eq_some'.mp hpg
              subst hrgp
              dsimp only at h
              cases hrc : getRecipeConfig r0 pg.2 b with
              | none => rw [hrc] at h; exact absurd h (by simp)
              | some c0 =>
                  rw [hrc] at h
                  dsimp only at h
                  have he := Option.some.inj h
                  rw [← he]
                  exact hpg2

/-- C4.  The runtime probe always reports at least one GPU; every successful
resolution carries `gpu_count ≤ runtime_visible`; and a customer gpu count
above `runtime_visible` is clamped to `runtime_visible` before matching —
the resolution proceeds exactly as if the customer had asked for
`runtime_visible`, so no error arises from the clamp alone. -/
theorem gpu_count_bounded_and_clamped :
    (∀ (probe : MethodOutcome) (t : TorchOutcome) (rocm nvidia : MethodOutcome)
        (cvd : Option String), 1 ≤ detectVllmGpus probe t rocm nvidia cvd) ∧
      (∀ (s : Selector) (R cont host : Nat) (m : String) (cg : Option Nat)
        (cp : Option String) (b : Backend) (cfg : OptimalConfig), 1 ≤ R →
        getOptimalConfiguration s R cont host m cg cp b = some cfg → cfg.gpu_count ≤ R) ∧
      (∀ (s : Selector) (R cont host : Nat) (m : String) (c : Nat) (cp : Option String)
        (b : Backend), R < c →
        getOptimalConfiguration s R cont host m (some c) cp b =
          getOptimalConfiguration s R cont host m (some R) cp b) := by
  refine ⟨?_, ?_, ?_⟩
  · intro probe t rocm nvidia cvd
    cases probe with
    | raised =>
        dsimp [detectVllmGpus]
        split_ifs with h <;> omega
    | failed =>
        dsimp [detectVllmGpus]
        split_ifs with h <;> omega
    | ok n =>
        dsimp [detectVllmGpus]
        by_cases h : n > 0
        · rw [if_pos h]
          dsimp only
          omega
        · rw [if_neg h]
          dsimp only
          split_ifs with h2 <;> omega
  · intro s R cont host m cg cp b cfg hR h
    exact core_gpu_count_le s R cont host m _ _ b cfg (getOptimalGpuCount_le s m R cg hR) h
  · intro s R cont host m c cp b hRc
    unfold getOptimalConfiguration
    have h1 : getOptimalGpuCount s m R (some c) = R := by
      unfold getOptimalGpuCount
      dsimp only
      rw [if_pos hRc]
    have h2 : getOptimalGpuCount s m R (some R) = R := by
      unfold getOptimalGpuCount
      dsimp only
      rw [if_neg (lt_irrefl R)]
    rw [h1, h2]

/-- Witness for `gpu_count_bounded_and_clamped`: a successful resolution
respecting the bound, and a clamped request resolving identically to the
at-budget request. -/
theorem gpu_count_bounded_witness :
    ({ recipe_id := "org-model-32b-bf16", model_id := "Org/Model-32B", gpu_count := 4,
       precision := "bf16", backend := .vllm,
       config := ⟨some true, [("model", "Org/Model-32B"), ("tensor-parallel-size", "4")]⟩,
       available_gpus := 8, container_gpus := 8, host_gpus := 8 } : OptimalConfig).gpu_count ≤ 8 ∧
      getOptimalConfiguration scenBSelector 2 2 2 "Org/Model-32B" (some 5) (some "bf16") .vllm =
        getOptimalConfiguration scenBSelector 2 2 2 "Org/Model-32B" (some 2) (some "bf16") .vllm :=
  ⟨gpu_count_bounded_and_clamped.2.1 scenBSelector 8 8 8 "Org/Model-32B" (some 4)
      (some "bf16") .vllm _ (by decide) (by decide),
   gpu_count_bounded_and_clamped.2.2 scenBSelector 2 2 2 "Org/Model-32B" 5
      (some "bf16") .vllm (by decide)⟩

/-- C5.  With the customer gpu count and precision omitted, the candidates
follow the size-class heuristics: 7B/8B → 1 GPU and fp16; 13B/14B → 2 GPUs
when the runtime sees at least 2, else all visible, and bf16; 32B/34B → 4
or all visible, bf16; 70B/72B → 8 or all visible, bf16; any other or
unknown size class → all visible GPUs and bf16. -/
theorem auto_selection_heuristics :
    ∀ (s : Selector) (m : String) (R : Nat), 1 ≤ R →
      ((modelSize s m = "7B" ∨ modelSize s m = "8B") →
          getOptimalGpuCount s m R none = 1 ∧ selectBestPrecision s m none = "fp16") ∧
      ((modelSize s m = "13B" ∨ modelSize s m = "14B") →
          getOptimalGpuCount s m R none = (if 2 ≤ R then 2 else R) ∧
          selectBestPrecision s m none = "bf16") ∧
      ((modelSize s m = "32B" ∨ modelSize s m = "34B") →
          getOptimalGpuCount s m R none = (if 4 ≤ R then 4 else R) ∧
          selectBestPrecision s m none = "bf16") ∧
      ((modelSize s m = "70B" ∨ modelSize s m = "72B") →
          getOptimalGpuCount s m R none = (if 8 ≤ R then 8 else R) ∧
          selectBestPrecision s m none = "bf16") ∧
      (modelSize s m ∉ (["7B", "8B", "13B", "14B", "32B", "34B", "70B", "72B"] : List String) →
          getOptimalGpuCount s m R none = R ∧ selectBestPrecision s m none = "bf16") := by
  intro s m R hR
  refine ⟨?_, ?_, ?_, ?_, ?_⟩
  · rintro (h' | h') <;>
      refine ⟨?_, ?_⟩ <;>
      · simp [getOptimalGpuCount, selectBestPrecision, autoPrecision, h', hR]
        all_goals intros
        all_goals try split_ifs at *
        all_goals omega
  · rintro (h' | h') <;>
      refine ⟨?_, ?_⟩ <;>
      · simp [getOptimalGpuCount, selectBestPrecision, autoPrecision, h', hR]
        all_goals intros
        all_goals try split_ifs at *
        all_goals omega
  · rintro (h' | h') <;>
      refine ⟨?_, ?_⟩ <;>
      · simp [getOptimalGpuCount, selectBestPrecision, autoPrecision, h', hR]
        all_goals intros
        all_goals try split_ifs at *
        all_goals omega
  · rintro (h' | h') <;>
      refine ⟨?_, ?_⟩ <;>
      · simp [getOptimalGpuCount, selectBestPrecision, autoPrecision, h', hR]
        all_goals intros
        all_goals try split_ifs at *
        all_goals omega
  · intro h'
    have h7 : modelSize s m ≠ "7B" := fun e => h' (by rw [e]; decide)
    have h8 : modelSize s m ≠ "8B" := fun e => h' (by rw [e]; decide)
    have h13 : modelSize s m ≠ "13B" := fun e => h' (by rw [e]; decide)
    have h14 : modelSize s m ≠ "14B" := fun e => h' (by rw [e]; decide)
    have h32 : modelSize s m ≠ "32B" := fun e => h' (by rw [e]; decide)
    have h34 : modelSize s m ≠ "34B" := fun e => h' (by rw [e]; decide)
    have h70 : modelSize s m ≠ "70B" := fun e => h' (by rw [e]; decide)
    have h72 : modelSize s m ≠ "72B" := fun e => h' (by rw [e]; decide)
    constructor
    · simp [getOptimalGpuCount, h7, h8, h13, h14, h32, h34, h70, h72]
      all_goals intros
      all_goals try split_ifs at *
      all_goals omega
    · simp [selectBestPrecision, autoPrecision, h7, h8, h13, h14]

/-- Witness for `auto_selection_heuristics`: the 32B scenario model with 8
visible GPUs auto-selects 4 GPUs and bf16. -/
theorem auto_selection_witness :
    getOptimalGpuCount scenBSelector "Org/Model-32B" 8 none = (if 4 ≤ 8 then 4 else 8) ∧
      selectBestPrecision scenBSelector "Org/Model-32B" none = "bf16" :=
  (auto_selection_heuristics scenBSelector "Org/Model-32B" 8 (by decide)).2.2.1 (by decide)

end AimEngine


